import Mathlib

/-!
Verification development for the simple-social-mcp server.

The embedding models the OAuth 2.1 authorization-code endpoints, the bearer
authentication middleware, the JSON-RPC dispatcher of the main Express server
(the `POST /message` handler and its `handleToolCall` executor, together with
the `tools` registry and the in-memory `sessions` / `authCodes` Maps), and the
standalone `handleMCPRequest` JSON-RPC dispatcher of the serverless variant.

Conventions of the embedding:
- JavaScript `Map` objects keyed by strings are modelled as association lists
  (`List (String × α)`) with `storeGet` / `storeSet` / `storeDel` mirroring
  `Map.get` / `Map.set` / `Map.delete`.
- HTTP query/body parameters that may be absent are `Option String`; the
  JavaScript truthiness test on such a value (`if (x)`) is `truthy`, which is
  false exactly for an absent value and for the empty string.
- Timestamps (`Date.now()`, `expires_at`) are `Nat` milliseconds.
- `crypto.createHash("sha256").update(v).digest("base64url")` is abstracted as
  a function parameter `hash : String → String`; the control flow around it is
  modelled exactly.
- Randomly minted tokens and codes (`crypto.randomBytes(...)`) are passed in
  as parameters, standing for the entropy source.
- JavaScript numbers in the calculator are modelled as rationals, and the
  number-to-string rendering of template literals is abstracted as a function
  parameter `numStr : ℚ → String`.
- The current instant used by `get_current_time` is abstracted by parameters
  `nowISO : String` (the `toISOString` rendering) and
  `localeTime : String → String` (the `toLocaleString` rendering per timezone).
-/

/-- Lookup in a string-keyed map, mirroring `Map.prototype.get`. -/
def storeGet {α : Type} (s : List (String × α)) (k : String) : Option α :=
  match s with
  | [] => none
  | (k2, v) :: rest => if k2 = k then some v else storeGet rest k

/-- Insert-or-replace in a string-keyed map, mirroring `Map.prototype.set`. -/
def storeSet {α : Type} (s : List (String × α)) (k : String) (v : α) :
    List (String × α) :=
  match s with
  | [] => [(k, v)]
  | (k2, v2) :: rest =>
      if k2 = k then (k, v) :: rest else (k2, v2) :: storeSet rest k v

/-- Removal from a string-keyed map, mirroring `Map.prototype.delete`. -/
def storeDel {α : Type} (s : List (String × α)) (k : String) :
    List (String × α) :=
  s.filter (fun p => p.1 != k)

/-- `Map.get` applied to a possibly-absent key: `map.get(undefined)` finds
nothing, since all stored keys are strings. -/
def getOpt {α : Type} (s : List (String × α)) (k : Option String) : Option α :=
  match k with
  | none => none
  | some k2 => storeGet s k2

/-- `Map.delete` applied to a possibly-absent key: `map.delete(undefined)` is
a no-op, since all stored keys are strings. -/
def delOpt {α : Type} (s : List (String × α)) (k : Option String) :
    List (String × α) :=
  match k with
  | none => s
  | some k2 => storeDel s k2

/-- JavaScript truthiness of a string-or-undefined value: false exactly for
`undefined` and for the empty string. -/
def truthy : Option String → Bool
  | none => false
  | some s => s != ""

/-- The shape of the `user` objects attached to authorization codes and
sessions (see the demo/google/github login handlers). -/
structure User where
  id : String
  name : String
  email : String
  picture : String
  login_method : String
deriving DecidableEq

/-- The fixed principal minted by the `GET /oauth/demo-login` handler. -/
def demoUser : User :=
  ⟨"demo-user-123", "Demo User", "demo@example.com",
   "https://via.placeholder.com/150", "demo"⟩

/-- A record stored in the `authCodes` Map by the login handlers. -/
structure AuthCodeRecord where
  client_id : Option String
  redirect_uri : Option String
  scope : String
  user : User
  code_challenge : Option String
  code_challenge_method : Option String
  expires_at : Nat
deriving DecidableEq

/-- A record stored in the `sessions` Map by the `POST /oauth/token` handler.
Note the stored fields: user, scope, client_id, expires_at — the refresh
token is not among them. -/
structure Session where
  user : User
  scope : String
  client_id : Option String
  expires_at : Nat
deriving DecidableEq

/-- The JSON body produced by the `POST /oauth/token` handler: either a 400
error object or the 200 token response. -/
inductive TokenResp where
  | err (error : String) (error_description : String)
  | ok (access_token : String) (refresh_token : String) (token_type : String)
      (expires_in : Nat) (scope : String)
deriving DecidableEq

/-- The `error` field of an error response, `none` for a success response. -/
def TokenResp.errName : TokenResp → Option String
  | TokenResp.err e _ => some e
  | TokenResp.ok _ _ _ _ _ => none

/-- Whether the response is the 200 success response. -/
def TokenResp.isOk : TokenResp → Bool
  | TokenResp.err _ _ => false
  | TokenResp.ok _ _ _ _ _ => true

/-- Result of one `POST /oauth/token` request: the response body together with
the resulting `authCodes` and `sessions` stores. -/
structure TokenOutcome where
  resp : TokenResp
  authCodes : List (String × AuthCodeRecord)
  sessions : List (String × Session)
deriving DecidableEq

/-- The `POST /oauth/token` handler. Parameters mirror the destructured
request body (`redirect_uri`, `client_id` and `client_secret` are read by the
handler but never used); `accessToken` and `refreshToken` stand for the two
`crypto.randomBytes(32).toString("hex")` draws; `hash` stands for
sha256-then-base64url; `now` is `Date.now()`. -/
def oauthToken (hash : String → String)
    (grant_type code redirect_uri client_id client_secret code_verifier :
      Option String)
    (accessToken refreshToken : String) (now : Nat)
    (authCodes : List (String × AuthCodeRecord))
    (sessions : List (String × Session)) : TokenOutcome :=
  if grant_type ≠ some "authorization_code" then
    ⟨TokenResp.err "unsupported_grant_type"
       "Only authorization_code grant type is supported", authCodes, sessions⟩
  else
    match getOpt authCodes code with
    | none =>
        ⟨TokenResp.err "invalid_grant" "Invalid or expired authorization code",
         delOpt authCodes code, sessions⟩
    | some authData =>
        if authData.expires_at < now then
          ⟨TokenResp.err "invalid_grant"
             "Invalid or expired authorization code",
           delOpt authCodes code, sessions⟩
        else
          let success : TokenOutcome :=
            ⟨TokenResp.ok accessToken refreshToken "Bearer" 3600
               authData.scope,
             delOpt authCodes code,
             storeSet sessions accessToken
               ⟨authData.user, authData.scope, authData.client_id,
                now + 3600000⟩⟩
          if truthy authData.code_challenge then
            if truthy code_verifier then
              if hash (code_verifier.getD "") = authData.code_challenge.getD ""
              then success
              else ⟨TokenResp.err "invalid_grant" "Invalid code_verifier",
                    authCodes, sessions⟩
            else ⟨TokenResp.err "invalid_request"
                    "code_verifier required for PKCE flow",
                  authCodes, sessions⟩
          else success

/-- JavaScript `String.prototype.startsWith`, as a test on the character
sequences. -/
def strStartsWith (s pre : String) : Bool :=
  pre.data.isPrefixOf s.data

/-- JavaScript `String.prototype.substring(n)`: drop the first `n`
characters. -/
def strDrop (s : String) (n : Nat) : String :=
  String.mk (s.data.drop n)

/-- Splitting of a character sequence at every occurrence of `sep`,
mirroring JavaScript `String.prototype.split` (keeps empty pieces). -/
def splitChars (sep : Char) : List Char → List (List Char)
  | [] => [[]]
  | c :: t =>
      if c = sep then [] :: splitChars sep t
      else
        match splitChars sep t with
        | [] => [[c]]
        | h :: t2 => (c :: h) :: t2

/-- JavaScript `String.prototype.split` with a one-character separator. -/
def strSplit (s : String) (sep : Char) : List String :=
  (splitChars sep s.data).map String.mk

/-- Outcome of the `authenticate` middleware: either the 401 rejection body
(its HTTP status, JSON-RPC error code and message) or success, carrying the
`req.user` and `req.scopes` values it attaches. -/
inductive AuthOutcome where
  | fail (status : Nat) (code : Int) (message : String)
  | ok (user : User) (scopes : List String)
deriving DecidableEq

/-- Result of one run of the `authenticate` middleware: its outcome together
with the resulting `sessions` store. -/
structure AuthResult where
  outcome : AuthOutcome
  sessions : List (String × Session)
deriving DecidableEq

/-- The `authenticate` middleware guarding `/sse` and `/message`:
`authHeader` is `req.headers.authorization`, `now` is `Date.now()`. -/
def authenticate (authHeader : Option String)
    (sessions : List (String × Session)) (now : Nat) : AuthResult :=
  match authHeader with
  | none =>
      ⟨AuthOutcome.fail 401 (-32001)
         "Authentication required - missing bearer token. Please authenticate via OAuth first.",
       sessions⟩
  | some h =>
      if strStartsWith h "Bearer " then
        let token := strDrop h 7
        match storeGet sessions token with
        | none =>
            ⟨AuthOutcome.fail 401 (-32001)
               "Invalid or expired token. Please re-authenticate via OAuth.",
             storeDel sessions token⟩
        | some session =>
            if session.expires_at < now then
              ⟨AuthOutcome.fail 401 (-32001)
                 "Invalid or expired token. Please re-authenticate via OAuth.",
               storeDel sessions token⟩
            else
              ⟨AuthOutcome.ok session.user (strSplit session.scope ' '),
               sessions⟩
      else
        ⟨AuthOutcome.fail 401 (-32001)
           "Authentication required - missing bearer token. Please authenticate via OAuth first.",
         sessions⟩

/-- Response of the `GET /oauth/authorize` handler: the 400 error body, or
the rendered login page (whose HTML content is irrelevant here). -/
inductive AuthorizeResp where
  | err (status : Nat) (error : String) (error_description : String)
  | loginPage
deriving DecidableEq

/-- The parameter validation of the `GET /oauth/authorize` handler. -/
def oauthAuthorize
    (client_id redirect_uri response_type scope state code_challenge
      code_challenge_method : Option String) : AuthorizeResp :=
  if truthy client_id = false ∨ truthy redirect_uri = false ∨
      response_type ≠ some "code" then
    AuthorizeResp.err 400 "invalid_request"
      "Missing or invalid required parameters"
  else
    AuthorizeResp.loginPage

/-- Result of the `GET /oauth/demo-login` handler: the redirect target (the
`redirect_uri` string plus the final query-parameter list), or `none` when
`new URL(redirect_uri)` throws because the value is absent; plus the
resulting `authCodes` store (which is updated before the URL is built). -/
structure DemoLoginOutcome where
  redirect : Option (String × List (String × String))
  authCodes : List (String × AuthCodeRecord)
deriving DecidableEq

/-- `URLSearchParams.set` on a query-parameter list: replace the value of an
existing key, otherwise append. -/
def urlSetParam (q : List (String × String)) (k v : String) :
    List (String × String) :=
  storeSet q k v

/-- The `GET /oauth/demo-login` handler. `authCode` stands for the
`crypto.randomBytes(32).toString("hex")` draw; `baseQuery` is the query
parameter list already present in `redirect_uri` (the result of `new URL`
parsing, abstracted as an input); `now` is `Date.now()`. The code record is
stored first; then the redirect gets `code` set, and `state` set only when
`state` is truthy. -/
def demoLogin (authCode : String)
    (client_id redirect_uri state scope code_challenge code_challenge_method :
      Option String)
    (baseQuery : List (String × String)) (now : Nat)
    (authCodes : List (String × AuthCodeRecord)) : DemoLoginOutcome :=
  let record : AuthCodeRecord :=
    ⟨client_id, redirect_uri,
     (if truthy scope then scope.getD "" else "tools:read"),
     demoUser, code_challenge, code_challenge_method, now + 600000⟩
  let authCodes2 := storeSet authCodes authCode record
  match redirect_uri with
  | none => ⟨none, authCodes2⟩
  | some uri =>
      let q := urlSetParam baseQuery "code" authCode
      let q2 := if truthy state then urlSetParam q "state" (state.getD "")
                else q
      ⟨some (uri, q2), authCodes2⟩

/-- A property entry of a tool input schema, as declared in the `tools`
registry object (property name, `type`, `description`, optional `enum`). -/
structure SchemaProp where
  name : String
  type : String
  description : String
  enum : List String
deriving DecidableEq

/-- A tool `inputSchema` as declared in the registry. -/
structure InputSchema where
  type : String
  properties : List SchemaProp
  required : List String
deriving DecidableEq

/-- A tool descriptor of the registry: `name`, `description`, `inputSchema`. -/
structure ToolDescriptor where
  name : String
  description : String
  inputSchema : InputSchema
deriving DecidableEq

/-- The `tools` registry object of the main server, in declaration order
(`Object.values` preserves string-key insertion order). -/
def tools : List ToolDescriptor :=
  [⟨"greet_user",
    "Greet the authenticated user with their name and login method",
    ⟨"object",
     [⟨"message", "string", "Optional custom greeting message", []⟩], []⟩⟩,
   ⟨"get_current_time",
    "Get the current date and time",
    ⟨"object",
     [⟨"timezone", "string",
       "Timezone (e.g., 'UTC', 'America/New_York')",
       []⟩], []⟩⟩,
   ⟨"simple_calculator",
    "Perform basic arithmetic operations",
    ⟨"object",
     [⟨"operation", "string", "Arithmetic operation to perform",
       ["add", "subtract", "multiply", "divide"]⟩,
      ⟨"a", "number", "First number", []⟩,
      ⟨"b", "number", "Second number", []⟩],
     ["operation", "a", "b"]⟩⟩]

/-- The argument object passed to `handleToolCall`. Each tool reads only its
own fields. `operation`, `a` and `b` are `required` by the calculator schema
and are modelled as plain values (an absent-argument call is outside this
model). -/
structure ToolArgs where
  message : Option String
  timezone : Option String
  operation : String
  a : ℚ
  b : ℚ
deriving DecidableEq

/-- The empty arguments object substituted by `args || {}`. -/
def defaultToolArgs : ToolArgs := ⟨none, none, "", 0, 0⟩

/-- One element of a tool result `content` array. -/
structure ContentItem where
  type : String
  text : String
deriving DecidableEq

/-- A tool result `{content: [...]}`. -/
structure ToolResult where
  content : List ContentItem
deriving DecidableEq

/-- The `handleToolCall` executor of the main server. A thrown `Error` is
modelled as `Except.error` carrying the error message. -/
def handleToolCall (numStr : ℚ → String) (nowISO : String)
    (localeTime : String → String)
    (toolName : String) (args : ToolArgs) (user : User) :
    Except String ToolResult :=
  if toolName = "greet_user" then
    let customMessage :=
      if truthy args.message then args.message.getD ""
      else "Hello, " ++ user.name ++ "!"
    Except.ok ⟨[⟨"text",
      customMessage ++ " 👋\n\nYou're authenticated as: " ++ user.email ++
        "\nLogin method: " ++ user.login_method ++ "\nUser ID: " ++
        user.id⟩]⟩
  else if toolName = "get_current_time" then
    let timezone := if truthy args.timezone then args.timezone.getD ""
                    else "UTC"
    let timeString := if timezone = "UTC" then nowISO else localeTime timezone
    Except.ok ⟨[⟨"text",
      "Current time: " ++ timeString ++ " (" ++ timezone ++
        ")\nRequested by: " ++ user.name⟩]⟩
  else if toolName = "simple_calculator" then
    let calcText : ℚ → String := fun r =>
      numStr args.a ++ " " ++ args.operation ++ " " ++ numStr args.b ++
        " = " ++ numStr r ++ "\nCalculated for: " ++ user.name
    if args.operation = "add" then
      Except.ok ⟨[⟨"text", calcText (args.a + args.b)⟩]⟩
    else if args.operation = "subtract" then
      Except.ok ⟨[⟨"text", calcText (args.a - args.b)⟩]⟩
    else if args.operation = "multiply" then
      Except.ok ⟨[⟨"text", calcText (args.a * args.b)⟩]⟩
    else if args.operation = "divide" then
      if args.b = 0 then Except.error "Division by zero"
      else Except.ok ⟨[⟨"text", calcText (args.a / args.b)⟩]⟩
    else Except.error ("Unknown operation: " ++ args.operation)
  else Except.error ("Unknown tool: " ++ toolName)

/-- A JSON-RPC request id: string, number, or null. -/
inductive RpcId where
  | str (s : String)
  | num (n : Int)
  | null
deriving DecidableEq

/-- The `params` object of a `tools/call` request (other methods ignore it).
A `tools/call` request whose `params` is absent (a TypeError path in the
source) is outside this model. -/
structure ToolCallParams where
  name : String
  arguments : Option ToolArgs
deriving DecidableEq

/-- A JSON-RPC request body received by the `POST /message` handler. -/
structure McpRequest where
  jsonrpc : Option String
  method : String
  params : ToolCallParams
  id : RpcId
deriving DecidableEq

/-- A successful result value of the `POST /message` dispatcher. -/
inductive McpResult where
  | initRes (protocolVersion serverName serverVersion userName userEmail
      userLogin : String)
  | toolsList (ts : List ToolDescriptor)
  | toolResult (r : ToolResult)
deriving DecidableEq

/-- A JSON-RPC response emitted by the `POST /message` handler. -/
inductive McpResponse where
  | result (r : McpResult) (id : RpcId)
  | error (code : Int) (message : String) (id : RpcId)
deriving DecidableEq

/-- The `POST /message` dispatcher of the main server, running after
`authenticate` attached `user`. The `switch` falls to a `default` branch that
throws, and the surrounding `catch` turns any thrown error into a `-32603`
JSON-RPC error carrying the message. -/
def dispatchMessage (numStr : ℚ → String) (nowISO : String)
    (localeTime : String → String)
    (user : User) (req : McpRequest) : McpResponse :=
  if req.jsonrpc ≠ some "2.0" then
    McpResponse.error (-32600) "Invalid Request" req.id
  else if req.method = "initialize" then
    McpResponse.result
      (McpResult.initRes "2025-03-26" "Simple Social MCP" "1.0.0"
        user.name user.email user.login_method) req.id
  else if req.method = "tools/list" then
    McpResponse.result (McpResult.toolsList tools) req.id
  else if req.method = "tools/call" then
    match handleToolCall numStr nowISO localeTime req.params.name
        (req.params.arguments.getD defaultToolArgs) user with
    | Except.ok r => McpResponse.result (McpResult.toolResult r) req.id
    | Except.error msg => McpResponse.error (-32603) msg req.id
  else
    McpResponse.error (-32603) ("Unknown method: " ++ req.method) req.id

/-- Arguments of the serverless dispatcher's `greet-user` tool
(`args?.name`). -/
structure GreetArgs where
  name : Option String
deriving DecidableEq

/-- The `params` of a `tools/call` request to the serverless dispatcher. -/
structure MCPToolParams where
  name : String
  arguments : Option GreetArgs
deriving DecidableEq

/-- A request body handled by the serverless `handleMCPRequest` dispatcher. -/
structure MCPRequestB where
  method : String
  params : Option MCPToolParams
  id : RpcId
deriving DecidableEq

/-- A successful result value of `handleMCPRequest`. `emptyObj` is the empty
result object returned for `notifications/initialized`. -/
inductive MCPResultB where
  | initRes (protocolVersion : String) (listChanged : Bool)
      (serverName serverVersion : String)
  | toolsList (ts : List ToolDescriptor)
  | emptyObj
  | content (r : ToolResult)
deriving DecidableEq

/-- A JSON-RPC response produced by `handleMCPRequest`. -/
inductive MCPResponseB where
  | result (r : MCPResultB) (id : RpcId)
  | error (code : Int) (message : String) (id : RpcId)
deriving DecidableEq

/-- The two tool descriptors returned by the serverless dispatcher's
`tools/list`. -/
def mcpToolsB : List ToolDescriptor :=
  [⟨"greet-user", "Greet the authenticated user",
    ⟨"object", [⟨"name", "string", "User name to greet", []⟩], []⟩⟩,
   ⟨"get-current-time", "Get the current server time",
    ⟨"object", [], []⟩⟩]

/-- The serverless `handleMCPRequest` dispatcher (part of the Vercel API
variant). `nowISO` stands for `new Date().toISOString()`. An absent
`params.name` under `params || {}` is modelled as the empty string. -/
def handleMCPRequest (nowISO : String) (req : MCPRequestB) : MCPResponseB :=
  if req.method = "initialize" then
    MCPResponseB.result
      (MCPResultB.initRes "2024-11-05" true "simple-social-mcp" "1.0.0") req.id
  else if req.method = "tools/list" then
    MCPResponseB.result (MCPResultB.toolsList mcpToolsB) req.id
  else if req.method = "notifications/initialized" then
    MCPResponseB.result MCPResultB.emptyObj req.id
  else if req.method = "tools/call" then
    let p := req.params.getD ⟨"", none⟩
    if p.name = "greet-user" then
      let nm :=
        match p.arguments with
        | some ga => if truthy ga.name then ga.name.getD "" else "there"
        | none => "there"
      MCPResponseB.result
        (MCPResultB.content ⟨[⟨"text",
          "Hello " ++ nm ++ "! Welcome to the Simple Social MCP Server! 👋"⟩]⟩)
        req.id
    else if p.name = "get-current-time" then
      MCPResponseB.result
        (MCPResultB.content ⟨[⟨"text",
          "Current server time: " ++ nowISO⟩]⟩) req.id
    else
      MCPResponseB.error (-32601) ("Unknown tool: " ++ p.name) req.id
  else
    MCPResponseB.error (-32601) ("Method not found: " ++ req.method) req.id

/-- Whether `needle` occurs as a contiguous sublist of `hay`. -/
def listHasSub (needle hay : List Char) : Bool :=
  match hay with
  | [] => needle.isEmpty
  | _ :: t => needle.isPrefixOf hay || listHasSub needle t

/-- Substring test on strings. -/
def strContains (hay needle : String) : Bool :=
  listHasSub needle.data hay.data

/-- Concrete number rendering used by witnesses (decimal rendering of the
numerator; agrees with JavaScript on the integral values the witnesses
use). -/
def numStr0 : ℚ → String := fun q => toString q.num

/-- Concrete timezone rendering used by witnesses. -/
def localeTime0 : String → String := fun tz => tz

/-- Concrete instant rendering used by witnesses. -/
def nowISO0 : String := "2026-01-01T00:00:00.000Z"

/-- Concrete stand-in for the sha256/base64url function, used by witnesses
and counterexamples (any function works: the handlers only compare its
output for equality). -/
def hash0 : String → String := fun s => s

/-- A concrete PKCE-protected authorization-code record used by
counterexamples. -/
def cexRecord : AuthCodeRecord :=
  ⟨some "client-1", some "https://client.example/cb", "tools:read", demoUser,
   some "CHAL", some "S256", 100⟩

/-- A concrete authorization-code record without a PKCE challenge, used by
witnesses. -/
def recPlain : AuthCodeRecord :=
  ⟨some "client-1", some "https://client.example/cb", "tools:read", demoUser,
   none, none, 100⟩

/-- A concrete expired session used by the bearer-validation
counterexample. -/
def cexSession : Session := ⟨demoUser, "tools:read", some "client-1", 0⟩

/-- The string a value of the login-page link object is turned into by
`new URLSearchParams({...})`: JavaScript ToString conversion, which renders
an absent (`undefined`) value as the literal string `undefined`. -/
def jsParamStr : Option String → String
  | none => "undefined"
  | some s => s

/-- The authorize-to-demo-login flow of the main server: the
`GET /oauth/authorize` handler validates the request and, on success,
renders a login page whose demo-login link is built at part_001 line 140 as
`new URLSearchParams({ client_id, redirect_uri, state, scope: scope || "",
code_challenge: code_challenge || "", code_challenge_method:
code_challenge_method || "" })` — so `client_id`, `redirect_uri` and `state`
go through `jsParamStr` (an absent `state` becomes the literal `undefined`)
while the three guarded values default to the empty string; clicking the
link runs the `GET /oauth/demo-login` handler on those now-present query
parameters. Returns `none` when validation fails (no login page is
rendered). -/
def authorizeDemoFlow (authCode : String)
    (client_id redirect_uri response_type scope state code_challenge
      code_challenge_method : Option String)
    (baseQuery : List (String × String)) (now : Nat)
    (authCodes : List (String × AuthCodeRecord)) : Option DemoLoginOutcome :=
  match oauthAuthorize client_id redirect_uri response_type scope state
      code_challenge code_challenge_method with
  | AuthorizeResp.err _ _ _ => none
  | AuthorizeResp.loginPage =>
      some (demoLogin authCode
        (some (jsParamStr client_id))
        (some (jsParamStr redirect_uri))
        (some (jsParamStr state))
        (some (scope.getD ""))
        (some (code_challenge.getD ""))
        (some (code_challenge_method.getD ""))
        baseQuery now authCodes)

theorem storeGet_storeDel {α : Type} (s : List (String × α)) (k : String) :
    storeGet (storeDel s k) k = none := by
  induction s with
  | nil => rfl
  | cons p t ih =>
      by_cases h : p.1 = k
      · simpa [storeDel, storeGet, h] using ih
      · simpa [storeDel, storeGet, h] using ih

theorem getOpt_delOpt {α : Type} (s : List (String × α)) (c : Option String) :
    getOpt (delOpt s c) c = none := by
  cases c with
  | none => rfl
  | some k => simpa [getOpt, delOpt] using storeGet_storeDel s k

theorem storeGet_storeSet {α : Type} (s : List (String × α)) (k : String)
    (v : α) : storeGet (storeSet s k v) k = some v := by
  induction s with
  | nil => simp [storeSet, storeGet]
  | cons p t ih =>
      by_cases h : p.1 = k
      · simp [storeSet, storeGet, h]
      · simpa [storeSet, storeGet, h] using ih

theorem storeGet_storeSet_ne {α : Type} (s : List (String × α)) (k k2 : String)
    (v : α) (h : k2 ≠ k) : storeGet (storeSet s k2 v) k = storeGet s k := by
  induction s with
  | nil => simp [storeSet, storeGet, h]
  | cons p t ih =>
      by_cases h2 : p.1 = k2
      · simp [storeSet, storeGet, h2, h]
      · simp only [storeSet, storeGet, h2, if_false]
        by_cases h3 : p.1 = k <;> simp [storeGet, h3, ih]

theorem oauthToken_bad_grant (hash : String → String)
    (gt code ru ci cs cv : Option String) (at2 rt : String) (now : Nat)
    (ac : List (String × AuthCodeRecord)) (ss : List (String × Session))
    (h : gt ≠ some "authorization_code") :
    oauthToken hash gt code ru ci cs cv at2 rt now ac ss =
      ⟨TokenResp.err "unsupported_grant_type"
        "Only authorization_code grant type is supported", ac, ss⟩ := by
  unfold oauthToken
  rw [if_pos h]

theorem oauthToken_absent (hash : String → String)
    (gt code ru ci cs cv : Option String) (at2 rt : String) (now : Nat)
    (ac : List (String × AuthCodeRecord)) (ss : List (String × Session))
    (h : gt = some "authorization_code") (h2 : getOpt ac code = none) :
    oauthToken hash gt code ru ci cs cv at2 rt now ac ss =
      ⟨TokenResp.err "invalid_grant" "Invalid or expired authorization code",
       delOpt ac code, ss⟩ := by
  unfold oauthToken
  rw [if_neg (by simp [h]), h2]

theorem oauthToken_expired (hash : String → String)
    (gt code ru ci cs cv : Option String) (at2 rt : String) (now : Nat)
    (ac : List (String × AuthCodeRecord)) (ss : List (String × Session))
    (rec : AuthCodeRecord)
    (h : gt = some "authorization_code") (h2 : getOpt ac code = some rec)
    (h3 : rec.expires_at < now) :
    oauthToken hash gt code ru ci cs cv at2 rt now ac ss =
      ⟨TokenResp.err "invalid_grant" "Invalid or expired authorization code",
       delOpt ac code, ss⟩ := by
  unfold oauthToken
  rw [if_neg (by simp [h]), h2]
  simp [h3]

theorem oauthToken_pkce_missing (hash : String → String)
    (gt code ru ci cs cv : Option String) (at2 rt : String) (now : Nat)
    (ac : List (String × AuthCodeRecord)) (ss : List (String × Session))
    (rec : AuthCodeRecord)
    (h : gt = some "authorization_code") (h2 : getOpt ac code = some rec)
    (h3 : ¬ rec.expires_at < now) (h4 : truthy rec.code_challenge = true)
    (h5 : truthy cv = false) :
    oauthToken hash gt code ru ci cs cv at2 rt now ac ss =
      ⟨TokenResp.err "invalid_request" "code_verifier required for PKCE flow",
       ac, ss⟩ := by
  unfold oauthToken
  rw [if_neg (by simp [h]), h2]
  simp [h3, h4, h5]

theorem oauthToken_pkce_mismatch (hash : String → String)
    (gt code ru ci cs cv : Option String) (at2 rt : String) (now : Nat)
    (ac : List (String × AuthCodeRecord)) (ss : List (String × Session))
    (rec : AuthCodeRecord)
    (h : gt = some "authorization_code") (h2 : getOpt ac code = some rec)
    (h3 : ¬ rec.expires_at < now) (h4 : truthy rec.code_challenge = true)
    (h5 : truthy cv = true)
    (h6 : hash (cv.getD "") ≠ rec.code_challenge.getD "") :
    oauthToken hash gt code ru ci cs cv at2 rt now ac ss =
      ⟨TokenResp.err "invalid_grant" "Invalid code_verifier", ac, ss⟩ := by
  unfold oauthToken
  rw [if_neg (by simp [h]), h2]
  simp [h3, h4, h5, h6]

theorem oauthToken_success_nopkce (hash : String → String)
    (gt code ru ci cs cv : Option String) (at2 rt : String) (now : Nat)
    (ac : List (String × AuthCodeRecord)) (ss : List (String × Session))
    (rec : AuthCodeRecord)
    (h : gt = some "authorization_code") (h2 : getOpt ac code = some rec)
    (h3 : ¬ rec.expires_at < now) (h4 : truthy rec.code_challenge = false) :
    oauthToken hash gt code ru ci cs cv at2 rt now ac ss =
      ⟨TokenResp.ok at2 rt "Bearer" 3600 rec.scope,
       delOpt ac code,
       storeSet ss at2 ⟨rec.user, rec.scope, rec.client_id, now + 3600000⟩⟩ := by
  unfold oauthToken
  rw [if_neg (by simp [h]), h2]
  simp [h3, h4]

theorem oauthToken_success_pkce (hash : String → String)
    (gt code ru ci cs cv : Option String) (at2 rt : String) (now : Nat)
    (ac : List (String × AuthCodeRecord)) (ss : List (String × Session))
    (rec : AuthCodeRecord)
    (h : gt = some "authorization_code") (h2 : getOpt ac code = some rec)
    (h3 : ¬ rec.expires_at < now) (h4 : truthy rec.code_challenge = true)
    (h5 : truthy cv = true)
    (h6 : hash (cv.getD "") = rec.code_challenge.getD "") :
    oauthToken hash gt code ru ci cs cv at2 rt now ac ss =
      ⟨TokenResp.ok at2 rt "Bearer" 3600 rec.scope,
       delOpt ac code,
       storeSet ss at2 ⟨rec.user, rec.scope, rec.client_id, now + 3600000⟩⟩ := by
  unfold oauthToken
  rw [if_neg (by simp [h]), h2]
  simp [h3, h4, h5, h6]

theorem oauthToken_ok_deletes (hash : String → String)
    (gt code ru ci cs cv : Option String) (at2 rt : String) (now : Nat)
    (ac : List (String × AuthCodeRecord)) (ss : List (String × Session))
    (hok : (oauthToken hash gt code ru ci cs cv at2 rt now ac ss).resp.isOk =
      true) :
    getOpt (oauthToken hash gt code ru ci cs cv at2 rt now ac ss).authCodes
      code = none := by
  by_cases h1 : gt = some "authorization_code"
  · rcases hget : getOpt ac code with _ | rec
    · rw [oauthToken_absent hash gt code ru ci cs cv at2 rt now ac ss h1 hget]
      exact getOpt_delOpt ac code
    · by_cases h3 : rec.expires_at < now
      · rw [oauthToken_expired hash gt code ru ci cs cv at2 rt now ac ss rec
          h1 hget h3]
        exact getOpt_delOpt ac code
      · cases h4 : truthy rec.code_challenge
        · rw [oauthToken_success_nopkce hash gt code ru ci cs cv at2 rt now
            ac ss rec h1 hget h3 h4]
          exact getOpt_delOpt ac code
        · cases h5 : truthy cv
          · rw [oauthToken_pkce_missing hash gt code ru ci cs cv at2 rt now
              ac ss rec h1 hget h3 h4 h5] at hok
            simp [TokenResp.isOk] at hok
          · by_cases h6 : hash (cv.getD "") = rec.code_challenge.getD ""
            · rw [oauthToken_success_pkce hash gt code ru ci cs cv at2 rt now
                ac ss rec h1 hget h3 h4 h5 h6]
              exact getOpt_delOpt ac code
            · rw [oauthToken_pkce_mismatch hash gt code ru ci cs cv at2 rt now
                ac ss rec h1 hget h3 h4 h5 h6] at hok
              simp [TokenResp.isOk] at hok
  · rw [oauthToken_bad_grant hash gt code ru ci cs cv at2 rt now ac ss h1]
      at hok
    simp [TokenResp.isOk] at hok

theorem oauthToken_stores_indep (hash : String → String)
    (gt code ru ci cs cv : Option String) (at2 rt1 rt2 : String) (now : Nat)
    (ac : List (String × AuthCodeRecord)) (ss : List (String × Session)) :
    (oauthToken hash gt code ru ci cs cv at2 rt1 now ac ss).authCodes =
      (oauthToken hash gt code ru ci cs cv at2 rt2 now ac ss).authCodes ∧
    (oauthToken hash gt code ru ci cs cv at2 rt1 now ac ss).sessions =
      (oauthToken hash gt code ru ci cs cv at2 rt2 now ac ss).sessions := by
  by_cases h1 : gt = some "authorization_code"
  · rcases hget : getOpt ac code with _ | rec
    · rw [oauthToken_absent hash gt code ru ci cs cv at2 rt1 now ac ss h1 hget,
        oauthToken_absent hash gt code ru ci cs cv at2 rt2 now ac ss h1 hget]
      exact ⟨rfl, rfl⟩
    · by_cases h3 : rec.expires_at < now
      · rw [oauthToken_expired hash gt code ru ci cs cv at2 rt1 now ac ss rec
          h1 hget h3,
          oauthToken_expired hash gt code ru ci cs cv at2 rt2 now ac ss rec
          h1 hget h3]
        exact ⟨rfl, rfl⟩
      · cases h4 : truthy rec.code_challenge
        · rw [oauthToken_success_nopkce hash gt code ru ci cs cv at2 rt1 now
            ac ss rec h1 hget h3 h4,
            oauthToken_success_nopkce hash gt code ru ci cs cv at2 rt2 now
            ac ss rec h1 hget h3 h4]
          exact ⟨rfl, rfl⟩
        · cases h5 : truthy cv
          · rw [oauthToken_pkce_missing hash gt code ru ci cs cv at2 rt1 now
              ac ss rec h1 hget h3 h4 h5,
              oauthToken_pkce_missing hash gt code ru ci cs cv at2 rt2 now
              ac ss rec h1 hget h3 h4 h5]
            exact ⟨rfl, rfl⟩
          · by_cases h6 : hash (cv.getD "") = rec.code_challenge.getD ""
            · rw [oauthToken_success_pkce hash gt code ru ci cs cv at2 rt1 now
                ac ss rec h1 hget h3 h4 h5 h6,
                oauthToken_success_pkce hash gt code ru ci cs cv at2 rt2 now
                ac ss rec h1 hget h3 h4 h5 h6]
              exact ⟨rfl, rfl⟩
            · rw [oauthToken_pkce_mismatch hash gt code ru ci cs cv at2 rt1
                now ac ss rec h1 hget h3 h4 h5 h6,
                oauthToken_pkce_mismatch hash gt code ru ci cs cv at2 rt2
                now ac ss rec h1 hget h3 h4 h5 h6]
              exact ⟨rfl, rfl⟩
  · rw [oauthToken_bad_grant hash gt code ru ci cs cv at2 rt1 now ac ss h1,
      oauthToken_bad_grant hash gt code ru ci cs cv at2 rt2 now ac ss h1]
    exact ⟨rfl, rfl⟩

/-- Claim C1 (counterexample): an exchange attempt that reads the stored code
record and terminally fails PKCE validation does not delete the code — the
`invalid_grant` response for a wrong verifier leaves the `authCodes` store
unchanged, so a second exchange with the same code still finds it. -/
theorem c1_code_single_use_cex :
    (oauthToken hash0 (some "authorization_code") (some "c") none none none
      (some "WRONG") "atok" "rtok" 0 [("c", cexRecord)] []).resp =
      TokenResp.err "invalid_grant" "Invalid code_verifier" ∧
    (oauthToken hash0 (some "authorization_code") (some "c") none none none
      (some "WRONG") "atok" "rtok" 0 [("c", cexRecord)] []).authCodes =
      [("c", cexRecord)] ∧
    getOpt
      (oauthToken hash0 (some "authorization_code") (some "c") none none none
        (some "WRONG") "atok" "rtok" 0 [("c", cexRecord)] []).authCodes
      (some "c") = some cexRecord := by
  refine ⟨?_, ?_, ?_⟩ <;> decide

/-- Claim C1 (amended): the code is deleted on a successful exchange and on an
exchange that finds it absent or expired; an exchange that fails PKCE
validation (missing or mismatching verifier) leaves the code store unchanged;
still, once an exchange succeeds, any further exchange with the same code
fails, so at most one of two exchanges with the same code can succeed. -/
theorem c1_code_single_use (hash : String → String)
    (gt code ru ci cs cv : Option String) (at2 rt : String) (now : Nat)
    (ac : List (String × AuthCodeRecord)) (ss : List (String × Session)) :
    ((oauthToken hash gt code ru ci cs cv at2 rt now ac ss).resp.isOk = true →
      getOpt (oauthToken hash gt code ru ci cs cv at2 rt now ac ss).authCodes
        code = none) ∧
    (gt = some "authorization_code" →
      (getOpt ac code = none ∨
        (∃ rec, getOpt ac code = some rec ∧ rec.expires_at < now)) →
      getOpt (oauthToken hash gt code ru ci cs cv at2 rt now ac ss).authCodes
        code = none) ∧
    (∀ rec, gt = some "authorization_code" → getOpt ac code = some rec →
      ¬ rec.expires_at < now → truthy rec.code_challenge = true →
      (truthy cv = false ∨
        (truthy cv = true ∧ hash (cv.getD "") ≠ rec.code_challenge.getD "")) →
      (oauthToken hash gt code ru ci cs cv at2 rt now ac ss).authCodes = ac) ∧
    (∀ hash2 gt2 ru2 ci2 cs2 cv2 at3 rt3 now2,
      (oauthToken hash gt code ru ci cs cv at2 rt now ac ss).resp.isOk =
        true →
      (oauthToken hash2 gt2 code ru2 ci2 cs2 cv2 at3 rt3 now2
        (oauthToken hash gt code ru ci cs cv at2 rt now ac ss).authCodes
        (oauthToken hash gt code ru ci cs cv at2 rt now ac ss).sessions).resp.isOk
        = false) := by
  refine ⟨oauthToken_ok_deletes hash gt code ru ci cs cv at2 rt now ac ss,
    ?_, ?_, ?_⟩
  · intro h1 hd
    rcases hd with hnone | ⟨rec, hget, hexp⟩
    · rw [oauthToken_absent hash gt code ru ci cs cv at2 rt now ac ss h1 hnone]
      exact getOpt_delOpt ac code
    · rw [oauthToken_expired hash gt code ru ci cs cv at2 rt now ac ss rec h1
        hget hexp]
      exact getOpt_delOpt ac code
  · intro rec h1 hget h3 h4 hd
    rcases hd with h5 | ⟨h5, h6⟩
    · rw [oauthToken_pkce_missing hash gt code ru ci cs cv at2 rt now ac ss
        rec h1 hget h3 h4 h5]
    · rw [oauthToken_pkce_mismatch hash gt code ru ci cs cv at2 rt now ac ss
        rec h1 hget h3 h4 h5 h6]
  · intro hash2 gt2 ru2 ci2 cs2 cv2 at3 rt3 now2 hok
    have hnone := oauthToken_ok_deletes hash gt code ru ci cs cv at2 rt now
      ac ss hok
    by_cases h1 : gt2 = some "authorization_code"
    · rw [oauthToken_absent hash2 gt2 code ru2 ci2 cs2 cv2 at3 rt3 now2 _ _
        h1 hnone]
      rfl
    · rw [oauthToken_bad_grant hash2 gt2 code ru2 ci2 cs2 cv2 at3 rt3 now2 _ _
        h1]
      rfl

theorem c1_code_single_use_witness :
    (oauthToken hash0 (some "authorization_code") (some "c") none none none
      none "atok" "rtok" 0 [("c", recPlain)] []).resp.isOk = true ∧
    (oauthToken hash0 (some "authorization_code") (some "c") none none none
      none "atok2" "rtok2" 0
      (oauthToken hash0 (some "authorization_code") (some "c") none none none
        none "atok" "rtok" 0 [("c", recPlain)] []).authCodes
      (oauthToken hash0 (some "authorization_code") (some "c") none none none
        none "atok" "rtok" 0 [("c", recPlain)] []).sessions).resp.isOk =
      false :=
  ⟨by decide,
   (c1_code_single_use hash0 (some "authorization_code") (some "c") none none
      none none "atok" "rtok" 0 [("c", recPlain)] []).2.2.2 hash0
      (some "authorization_code") none none none none "atok2" "rtok2" 0
      (by decide)⟩

/-- Claim C2 (counterexample): a code stored with an S256 challenge, exchanged
with the verifier omitted, fails with error `invalid_request` — not
`invalid_grant` as claimed. -/
theorem c2_pkce_validation_cex :
    (oauthToken hash0 (some "authorization_code") (some "c") none none none
      none "atok" "rtok" 0 [("c", cexRecord)] []).resp =
      TokenResp.err "invalid_request"
        "code_verifier required for PKCE flow" ∧
    TokenResp.errName
      (oauthToken hash0 (some "authorization_code") (some "c") none none none
        none "atok" "rtok" 0 [("c", cexRecord)] []).resp ≠
      some "invalid_grant" := by
  refine ⟨?_, ?_⟩ <;> decide

/-- Claim C2 (amended): for a stored code with a truthy challenge, an omitted
(or empty) verifier fails with `invalid_request`; a supplied verifier whose
hash differs from the challenge fails with `invalid_grant`; a verifier that
hashes to the challenge succeeds; and a code stored with no truthy challenge
exchanges successfully without any verifier. -/
theorem c2_pkce_validation (hash : String → String)
    (gt code ru ci cs cv : Option String) (at2 rt : String) (now : Nat)
    (ac : List (String × AuthCodeRecord)) (ss : List (String × Session))
    (rec : AuthCodeRecord)
    (hgt : gt = some "authorization_code") (hget : getOpt ac code = some rec)
    (hexp : ¬ rec.expires_at < now) :
    (truthy rec.code_challenge = true → truthy cv = false →
      (oauthToken hash gt code ru ci cs cv at2 rt now ac ss).resp =
        TokenResp.err "invalid_request"
          "code_verifier required for PKCE flow") ∧
    (truthy rec.code_challenge = true → truthy cv = true →
      hash (cv.getD "") ≠ rec.code_challenge.getD "" →
      (oauthToken hash gt code ru ci cs cv at2 rt now ac ss).resp =
        TokenResp.err "invalid_grant" "Invalid code_verifier") ∧
    (truthy rec.code_challenge = true → truthy cv = true →
      hash (cv.getD "") = rec.code_challenge.getD "" →
      (oauthToken hash gt code ru ci cs cv at2 rt now ac ss).resp =
        TokenResp.ok at2 rt "Bearer" 3600 rec.scope) ∧
    (truthy rec.code_challenge = false →
      (oauthToken hash gt code ru ci cs cv at2 rt now ac ss).resp =
        TokenResp.ok at2 rt "Bearer" 3600 rec.scope) := by
  refine ⟨?_, ?_, ?_, ?_⟩
  · intro h4 h5
    rw [oauthToken_pkce_missing hash gt code ru ci cs cv at2 rt now ac ss rec
      hgt hget hexp h4 h5]
  · intro h4 h5 h6
    rw [oauthToken_pkce_mismatch hash gt code ru ci cs cv at2 rt now ac ss rec
      hgt hget hexp h4 h5 h6]
  · intro h4 h5 h6
    rw [oauthToken_success_pkce hash gt code ru ci cs cv at2 rt now ac ss rec
      hgt hget hexp h4 h5 h6]
  · intro h4
    rw [oauthToken_success_nopkce hash gt code ru ci cs cv at2 rt now ac ss
      rec hgt hget hexp h4]

theorem c2_pkce_validation_witness :
    (oauthToken hash0 (some "authorization_code") (some "c") none none none
      (some "CHAL") "atok" "rtok" 0 [("c", cexRecord)] []).resp =
      TokenResp.ok "atok" "rtok" "Bearer" 3600 cexRecord.scope :=
  (c2_pkce_validation hash0 (some "authorization_code") (some "c") none none
    none (some "CHAL") "atok" "rtok" 0 [("c", cexRecord)] [] cexRecord rfl
    (by decide) (by decide)).2.2.1 (by decide) (by decide) (by decide)

/-- Claim C5: a token-exchange request fails with `unsupported_grant_type`
unless the grant type is `authorization_code`; it fails with `invalid_grant`
when the code is absent from the store or its expiry has passed, and in that
case the code is deleted if still present while the session store is
untouched; on success (PKCE satisfied or not required) it returns a body with
the minted access and refresh tokens, token type `Bearer`, `expires_in` 3600
and the scope stored with the code, stores a new session under the access
token, and deletes the code. -/
theorem c5_token_exchange (hash : String → String)
    (gt code ru ci cs cv : Option String) (at2 rt : String) (now : Nat)
    (ac : List (String × AuthCodeRecord)) (ss : List (String × Session)) :
    (gt ≠ some "authorization_code" →
      oauthToken hash gt code ru ci cs cv at2 rt now ac ss =
        ⟨TokenResp.err "unsupported_grant_type"
          "Only authorization_code grant type is supported", ac, ss⟩) ∧
    (gt = some "authorization_code" →
      (getOpt ac code = none ∨
        (∃ rec, getOpt ac code = some rec ∧ rec.expires_at < now)) →
      oauthToken hash gt code ru ci cs cv at2 rt now ac ss =
        ⟨TokenResp.err "invalid_grant" "Invalid or expired authorization code",
         delOpt ac code, ss⟩) ∧
    (∀ rec, gt = some "authorization_code" → getOpt ac code = some rec →
      ¬ rec.expires_at < now →
      (truthy rec.code_challenge = false ∨
        (truthy cv = true ∧ hash (cv.getD "") = rec.code_challenge.getD "")) →
      oauthToken hash gt code ru ci cs cv at2 rt now ac ss =
        ⟨TokenResp.ok at2 rt "Bearer" 3600 rec.scope, delOpt ac code,
         storeSet ss at2
           ⟨rec.user, rec.scope, rec.client_id, now + 3600000⟩⟩) := by
  refine ⟨?_, ?_, ?_⟩
  · intro h
    exact oauthToken_bad_grant hash gt code ru ci cs cv at2 rt now ac ss h
  · intro h1 hd
    rcases hd with hnone | ⟨rec, hget, hexp⟩
    · exact oauthToken_absent hash gt code ru ci cs cv at2 rt now ac ss h1
        hnone
    · exact oauthToken_expired hash gt code ru ci cs cv at2 rt now ac ss rec
        h1 hget hexp
  · intro rec h1 hget h3 hpk
    rcases hpk with h4 | ⟨h5, h6⟩
    · exact oauthToken_success_nopkce hash gt code ru ci cs cv at2 rt now ac
        ss rec h1 hget h3 h4
    · cases h4 : truthy rec.code_challenge
      · exact oauthToken_success_nopkce hash gt code ru ci cs cv at2 rt now
          ac ss rec h1 hget h3 h4
      · exact oauthToken_success_pkce hash gt code ru ci cs cv at2 rt now ac
          ss rec h1 hget h3 h4 h5 h6

theorem c5_token_exchange_witness :
    oauthToken hash0 (some "authorization_code") (some "c") none none none
      none "atok" "rtok" 0 [("c", recPlain)] [] =
      ⟨TokenResp.ok "atok" "rtok" "Bearer" 3600 recPlain.scope,
       delOpt [("c", recPlain)] (some "c"),
       storeSet [] "atok"
         ⟨recPlain.user, recPlain.scope, recPlain.client_id, 0 + 3600000⟩⟩ :=
  (c5_token_exchange hash0 (some "authorization_code") (some "c") none none
    none none "atok" "rtok" 0 [("c", recPlain)] []).2.2 recPlain rfl
    (by decide) (by decide) (Or.inl (by decide))

/-- Claim C10: refresh tokens are inert after issuance — the stores resulting
from a token exchange do not depend on the minted refresh token; the session
stored on success consists only of user, scope, client_id and expiry (no
refresh token field, per the `Session` structure); and a `refresh_token`
grant request is rejected with `unsupported_grant_type`, leaving both stores
unchanged, so no operation accepts or looks up a refresh token. -/
theorem c10_refresh_token_inert (hash : String → String)
    (gt code ru ci cs cv : Option String) (at2 rt1 rt2 : String) (now : Nat)
    (ac : List (String × AuthCodeRecord)) (ss : List (String × Session)) :
    ((oauthToken hash gt code ru ci cs cv at2 rt1 now ac ss).authCodes =
      (oauthToken hash gt code ru ci cs cv at2 rt2 now ac ss).authCodes ∧
     (oauthToken hash gt code ru ci cs cv at2 rt1 now ac ss).sessions =
      (oauthToken hash gt code ru ci cs cv at2 rt2 now ac ss).sessions) ∧
    (∀ rec, gt = some "authorization_code" → getOpt ac code = some rec →
      ¬ rec.expires_at < now →
      (truthy rec.code_challenge = false ∨
        (truthy cv = true ∧ hash (cv.getD "") = rec.code_challenge.getD "")) →
      (oauthToken hash gt code ru ci cs cv at2 rt1 now ac ss).sessions =
        storeSet ss at2
          ⟨rec.user, rec.scope, rec.client_id, now + 3600000⟩) ∧
    (oauthToken hash (some "refresh_token") code ru ci cs cv at2 rt1 now ac ss
      = ⟨TokenResp.err "unsupported_grant_type"
          "Only authorization_code grant type is supported", ac, ss⟩) := by
  refine ⟨oauthToken_stores_indep hash gt code ru ci cs cv at2 rt1 rt2 now ac
    ss, ?_, ?_⟩
  · intro rec h1 hget h3 hpk
    rcases hpk with h4 | ⟨h5, h6⟩
    · rw [oauthToken_success_nopkce hash gt code ru ci cs cv at2 rt1 now ac
        ss rec h1 hget h3 h4]
    · cases h4 : truthy rec.code_challenge
      · rw [oauthToken_success_nopkce hash gt code ru ci cs cv at2 rt1 now
          ac ss rec h1 hget h3 h4]
      · rw [oauthToken_success_pkce hash gt code ru ci cs cv at2 rt1 now ac
          ss rec h1 hget h3 h4 h5 h6]
  · exact oauthToken_bad_grant hash (some "refresh_token") code ru ci cs cv
      at2 rt1 now ac ss (by decide)

theorem c10_refresh_token_inert_witness :
    (oauthToken hash0 (some "authorization_code") (some "c") none none none
      none "atok" "rtok" 0 [("c", recPlain)] []).sessions =
      storeSet [] "atok"
        ⟨recPlain.user, recPlain.scope, recPlain.client_id, 0 + 3600000⟩ :=
  (c10_refresh_token_inert hash0 (some "authorization_code") (some "c") none
    none none none "atok" "rtok" "other" 0 [("c", recPlain)] []).2.1 recPlain
    rfl (by decide) (by decide) (Or.inl (by decide))

/-- Claim C7 (counterexample): validating a bearer token whose session is
expired is not side-effect-free — the middleware deletes the expired session,
so the session store changes. -/
theorem c7_bearer_validation_cex :
    (authenticate (some "Bearer t") [("t", cexSession)] 1).sessions = [] ∧
    (authenticate (some "Bearer t") [("t", cexSession)] 1).sessions ≠
      [("t", cexSession)] := by
  refine ⟨?_, ?_⟩ <;> decide

/-- Claim C7 (amended): bearer validation performs no token rotation and its
outcome is idempotent; the store is unchanged when the header is missing or
malformed and on success; but on the invalid-or-expired path the middleware
deletes the presented token's entry from the session store (lazy eviction of
an expired session), after which revalidating the same header yields the
same outcome. -/
theorem c7_bearer_validation (ss : List (String × Session)) (now : Nat) :
    ((authenticate none ss now).sessions = ss) ∧
    (∀ s, strStartsWith s "Bearer " = false →
      authenticate (some s) ss now =
        ⟨AuthOutcome.fail 401 (-32001)
          "Authentication required - missing bearer token. Please authenticate via OAuth first.",
         ss⟩) ∧
    (∀ s u sc, (authenticate (some s) ss now).outcome = AuthOutcome.ok u sc →
      (authenticate (some s) ss now).sessions = ss) ∧
    (∀ s, strStartsWith s "Bearer " = true →
      (storeGet ss (strDrop s 7) = none ∨
        (∃ sess, storeGet ss (strDrop s 7) = some sess ∧
          sess.expires_at < now)) →
      authenticate (some s) ss now =
        ⟨AuthOutcome.fail 401 (-32001)
          "Invalid or expired token. Please re-authenticate via OAuth.",
         storeDel ss (strDrop s 7)⟩) ∧
    (∀ h2, (authenticate h2 (authenticate h2 ss now).sessions now).outcome =
      (authenticate h2 ss now).outcome) := by
  refine ⟨rfl, ?_, ?_, ?_, ?_⟩
  · intro s hb
    simp [authenticate, hb]
  · intro s u sc
    cases hb : strStartsWith s "Bearer "
    · simp [authenticate, hb]
    · rcases hg : storeGet ss (strDrop s 7) with _ | sess
      · simp [authenticate, hb, hg]
      · by_cases he : sess.expires_at < now
        · simp [authenticate, hb, hg, he]
        · simp [authenticate, hb, hg, he]
  · intro s hb hd
    rcases hd with hg | ⟨sess, hg, he⟩
    · simp [authenticate, hb, hg]
    · simp [authenticate, hb, hg, he]
  · intro h2
    cases h2 with
    | none => rfl
    | some s =>
        cases hb : strStartsWith s "Bearer "
        · simp [authenticate, hb]
        · rcases hg : storeGet ss (strDrop s 7) with _ | sess
          · simp [authenticate, hb, hg, storeGet_storeDel]
          · by_cases he : sess.expires_at < now
            · simp [authenticate, hb, hg, he, storeGet_storeDel]
            · simp [authenticate, hb, hg, he]

theorem c7_bearer_validation_witness :
    authenticate (some "Bearer t") [("t", cexSession)] 1 =
      ⟨AuthOutcome.fail 401 (-32001)
        "Invalid or expired token. Please re-authenticate via OAuth.",
       storeDel [("t", cexSession)] (strDrop "Bearer t" 7)⟩ :=
  (c7_bearer_validation [("t", cexSession)] 1).2.2.2.1 "Bearer t" (by decide)
    (Or.inr ⟨cexSession, by decide, by decide⟩)

/-- Claim C6 (counterexample): a valid authorize request with no `state`
parameter, completed through the demo login page, yields a redirect that
carries `state=undefined` — the login-page link stringifies the absent
`state` to the literal `undefined`, which the demo-login handler then treats
as a truthy state — rather than omitting the `state` parameter. -/
theorem c6_authorize_redirect_cex :
    authorizeDemoFlow "AC" (some "ci") (some "https://cb.example/x")
      (some "code") none none none none [] 0 [] =
      some ⟨some ("https://cb.example/x",
          [("code", "AC"), ("state", "undefined")]),
        [("AC", ⟨some "ci", some "https://cb.example/x", "tools:read",
          demoUser, some "", some "", 600000⟩)]⟩ ∧
    storeGet [("code", "AC"), ("state", "undefined")] "state" =
      some "undefined" := by
  refine ⟨?_, ?_⟩ <;> decide

/-- Claim C6 (amended): an authorize request fails with `invalid_request`
exactly when `client_id` or `redirect_uri` is missing (absent or empty, the
JavaScript falsiness test) or `response_type` is not `code`; for every valid
authorize request completed through the demo login page, the resulting
redirect carries a `code` parameter; a supplied nonempty `state` is echoed
exactly and a supplied empty `state` is omitted, but when no `state` was
supplied the redirect carries the literal string `undefined` as its `state`
parameter (the login-page link stringifies the absent value) instead of
omitting it. -/
theorem c6_authorize_redirect
    (ci ru rt sc st cc ccm : Option String) (authCode : String)
    (baseQuery : List (String × String)) (now : Nat)
    (ac : List (String × AuthCodeRecord)) :
    ((oauthAuthorize ci ru rt sc st cc ccm =
        AuthorizeResp.err 400 "invalid_request"
          "Missing or invalid required parameters") ↔
      (truthy ci = false ∨ truthy ru = false ∨ rt ≠ some "code")) ∧
    (∀ o uri q,
      authorizeDemoFlow authCode ci ru rt sc st cc ccm baseQuery now ac =
        some o →
      o.redirect = some (uri, q) →
      storeGet q "code" = some authCode) ∧
    (∀ o uri q s,
      authorizeDemoFlow authCode ci ru rt sc st cc ccm baseQuery now ac =
        some o →
      o.redirect = some (uri, q) →
      st = some s → s ≠ "" →
      storeGet q "state" = some s) ∧
    (∀ o uri q,
      authorizeDemoFlow authCode ci ru rt sc st cc ccm baseQuery now ac =
        some o →
      o.redirect = some (uri, q) →
      st = some "" →
      storeGet q "state" = storeGet baseQuery "state") ∧
    (∀ o uri q,
      authorizeDemoFlow authCode ci ru rt sc st cc ccm baseQuery now ac =
        some o →
      o.redirect = some (uri, q) →
      st = none →
      storeGet q "state" = some "undefined") := by
  refine ⟨?_, ?_, ?_, ?_, ?_⟩
  · by_cases hc : truthy ci = false ∨ truthy ru = false ∨ rt ≠ some "code"
    · simp [oauthAuthorize, hc]
    · simp [oauthAuthorize, hc]
  · intro o uri q hflow hred
    cases hv : oauthAuthorize ci ru rt sc st cc ccm with
    | err a b c => simp [authorizeDemoFlow, hv] at hflow
    | loginPage =>
        simp [authorizeDemoFlow, hv] at hflow
        subst hflow
        cases hts : truthy (some (jsParamStr st)) <;>
          simp [demoLogin, hts] at hred
        · rw [← hred.2, urlSetParam]
          exact storeGet_storeSet baseQuery "code" authCode
        · rw [← hred.2, urlSetParam, urlSetParam]
          rw [storeGet_storeSet_ne _ "code" "state" _ (by decide)]
          exact storeGet_storeSet baseQuery "code" authCode
  · intro o uri q s hflow hred hst hsne
    subst hst
    cases hv : oauthAuthorize ci ru rt sc (some s) cc ccm with
    | err a b c => simp [authorizeDemoFlow, hv] at hflow
    | loginPage =>
        simp [authorizeDemoFlow, hv] at hflow
        subst hflow
        simp [demoLogin, jsParamStr, truthy, hsne] at hred
        rw [← hred.2, urlSetParam]
        exact storeGet_storeSet _ "state" _
  · intro o uri q hflow hred hst
    subst hst
    cases hv : oauthAuthorize ci ru rt sc (some "") cc ccm with
    | err a b c => simp [authorizeDemoFlow, hv] at hflow
    | loginPage =>
        simp [authorizeDemoFlow, hv] at hflow
        subst hflow
        simp [demoLogin, jsParamStr, truthy] at hred
        rw [← hred.2, urlSetParam]
        rw [storeGet_storeSet_ne _ "state" "code" _ (by decide)]
  · intro o uri q hflow hred hst
    subst hst
    cases hv : oauthAuthorize ci ru rt sc none cc ccm with
    | err a b c => simp [authorizeDemoFlow, hv] at hflow
    | loginPage =>
        simp [authorizeDemoFlow, hv] at hflow
        subst hflow
        simp [demoLogin, jsParamStr, truthy] at hred
        rw [← hred.2, urlSetParam]
        exact storeGet_storeSet _ "state" _

theorem c6_authorize_redirect_witness :
    storeGet [("code", "AC"), ("state", "xyz")] "state" = some "xyz" ∧
    storeGet [("code", "AC"), ("state", "xyz")] "code" = some "AC" :=
  ⟨(c6_authorize_redirect (some "ci") (some "https://cb.example/x")
      (some "code") none (some "xyz") none none "AC" [] 0 []).2.2.1
      ⟨some ("https://cb.example/x", [("code", "AC"), ("state", "xyz")]),
       [("AC", ⟨some "ci", some "https://cb.example/x", "tools:read",
         demoUser, some "", some "", 600000⟩)]⟩
      "https://cb.example/x" [("code", "AC"), ("state", "xyz")] "xyz"
      (by decide) (by decide) rfl (by decide),
   (c6_authorize_redirect (some "ci") (some "https://cb.example/x")
      (some "code") none (some "xyz") none none "AC" [] 0 []).2.1
      ⟨some ("https://cb.example/x", [("code", "AC"), ("state", "xyz")]),
       [("AC", ⟨some "ci", some "https://cb.example/x", "tools:read",
         demoUser, some "", some "", 600000⟩)]⟩
      "https://cb.example/x" [("code", "AC"), ("state", "xyz")]
      (by decide) (by decide)⟩

/-- Claim C3 (counterexample): the authenticated `POST /message` dispatcher
answers an unknown method with a JSON-RPC error of code `-32603` and message
`Unknown method: foo` — not code `-32601` with message
`Method not found: foo` as claimed. -/
theorem c3_unknown_method_cex :
    dispatchMessage numStr0 nowISO0 localeTime0 demoUser
      ⟨some "2.0", "foo", ⟨"", none⟩, RpcId.null⟩ =
      McpResponse.error (-32603) "Unknown method: foo" RpcId.null ∧
    McpResponse.error (-32603) "Unknown method: foo" RpcId.null ≠
      McpResponse.error (-32601) "Method not found: foo" RpcId.null := by
  refine ⟨?_, ?_⟩ <;> decide

/-- Claim C3 (amended): the authenticated `POST /message` dispatcher answers
an unknown method with error code `-32603` and message
`Unknown method: <method>`, and an unknown tool name in `tools/call` with
error code `-32603` and message `Unknown tool: <name>`; the standalone
`handleMCPRequest` dispatcher answers an unknown method with error code
`-32601` and message `Method not found: <method>`, and an unknown tool with
error code `-32601` and message `Unknown tool: <name>`. -/
theorem c3_unknown_method (numStr : ℚ → String) (nowISO : String)
    (localeTime : String → String) (user : User) (params : ToolCallParams)
    (id : RpcId) (method name : String) (argsOpt : Option ToolArgs)
    (pB : Option MCPToolParams) (gargs : Option GreetArgs) (idB : RpcId)
    (methodB nameB : String) :
    (method ≠ "initialize" → method ≠ "tools/list" → method ≠ "tools/call" →
      dispatchMessage numStr nowISO localeTime user
        ⟨some "2.0", method, params, id⟩ =
        McpResponse.error (-32603) ("Unknown method: " ++ method) id) ∧
    (name ≠ "greet_user" → name ≠ "get_current_time" →
      name ≠ "simple_calculator" →
      dispatchMessage numStr nowISO localeTime user
        ⟨some "2.0", "tools/call", ⟨name, argsOpt⟩, id⟩ =
        McpResponse.error (-32603) ("Unknown tool: " ++ name) id) ∧
    (methodB ≠ "initialize" → methodB ≠ "tools/list" →
      methodB ≠ "notifications/initialized" → methodB ≠ "tools/call" →
      handleMCPRequest nowISO ⟨methodB, pB, idB⟩ =
        MCPResponseB.error (-32601) ("Method not found: " ++ methodB) idB) ∧
    (nameB ≠ "greet-user" → nameB ≠ "get-current-time" →
      handleMCPRequest nowISO ⟨"tools/call", some ⟨nameB, gargs⟩, idB⟩ =
        MCPResponseB.error (-32601) ("Unknown tool: " ++ nameB) idB) := by
  refine ⟨?_, ?_, ?_, ?_⟩
  · intro h1 h2 h3
    simp [dispatchMessage, h1, h2, h3]
  · intro h1 h2 h3
    simp [dispatchMessage, handleToolCall, h1, h2, h3]
  · intro h1 h2 h3 h4
    simp [handleMCPRequest, h1, h2, h3, h4]
  · intro h1 h2
    simp [handleMCPRequest, h1, h2]

theorem c3_unknown_method_witness :
    dispatchMessage numStr0 nowISO0 localeTime0 demoUser
      ⟨some "2.0", "tools/call", ⟨"no_such_tool", none⟩, RpcId.num 3⟩ =
      McpResponse.error (-32603) ("Unknown tool: " ++ "no_such_tool")
        (RpcId.num 3) ∧
    handleMCPRequest nowISO0 ⟨"bogus", none, RpcId.num 7⟩ =
      MCPResponseB.error (-32601) ("Method not found: " ++ "bogus")
        (RpcId.num 7) :=
  ⟨(c3_unknown_method numStr0 nowISO0 localeTime0 demoUser ⟨"", none⟩
      (RpcId.num 3) "x" "no_such_tool" none none none (RpcId.num 7) "bogus"
      "y").2.1 (by decide) (by decide) (by decide),
   (c3_unknown_method numStr0 nowISO0 localeTime0 demoUser ⟨"", none⟩
      (RpcId.num 3) "x" "no_such_tool" none none none (RpcId.num 7) "bogus"
      "y").2.2.1 (by decide) (by decide) (by decide) (by decide)⟩

/-- Claim C4 (counterexample): the authenticated `POST /message` dispatcher
has no case for `notifications/initialized`; the request falls into the
default branch and the dispatcher returns a JSON-RPC error response (code
`-32603`), not an empty result. -/
theorem c4_notifications_cex :
    dispatchMessage numStr0 nowISO0 localeTime0 demoUser
      ⟨some "2.0", "notifications/initialized", ⟨"", none⟩, RpcId.null⟩ =
      McpResponse.error (-32603)
        "Unknown method: notifications/initialized" RpcId.null := by
  decide

/-- Claim C4 (amended): the standalone `handleMCPRequest` dispatcher answers
`notifications/initialized` with an empty result object and never an error;
the authenticated `POST /message` dispatcher instead answers it with a
`-32603` error response, because its method switch has no case for it. -/
theorem c4_notifications (nowISO : String) (pB : Option MCPToolParams)
    (idB : RpcId) (numStr : ℚ → String) (localeTime : String → String)
    (user : User) (p : ToolCallParams) (id : RpcId) :
    handleMCPRequest nowISO ⟨"notifications/initialized", pB, idB⟩ =
      MCPResponseB.result MCPResultB.emptyObj idB ∧
    dispatchMessage numStr nowISO localeTime user
      ⟨some "2.0", "notifications/initialized", p, id⟩ =
      McpResponse.error (-32603)
        "Unknown method: notifications/initialized" id := by
  refine ⟨?_, ?_⟩
  · simp [handleMCPRequest]
  · simp [dispatchMessage]

/-- Claim C9: `tools/list` on the authenticated dispatcher returns exactly
the registered tool descriptors in registration order, and the returned list
does not depend on the authenticated principal. -/
theorem c9_tools_list (numStr : ℚ → String) (nowISO : String)
    (localeTime : String → String) (u1 u2 : User) (p p2 : ToolCallParams)
    (id : RpcId) :
    dispatchMessage numStr nowISO localeTime u1
      ⟨some "2.0", "tools/list", p, id⟩ =
      McpResponse.result (McpResult.toolsList tools) id ∧
    dispatchMessage numStr nowISO localeTime u1
      ⟨some "2.0", "tools/list", p, id⟩ =
      dispatchMessage numStr nowISO localeTime u2
        ⟨some "2.0", "tools/list", p2, id⟩ := by
  refine ⟨?_, ?_⟩
  · simp [dispatchMessage]
  · simp [dispatchMessage]

/-- Claim C8: the calculator tool called through the dispatcher fails with
the `Division by zero` domain error (a `-32603` JSON-RPC error, not a
result) when dividing by zero; fails with `Unknown operation: <op>` for an
operation outside the enum; otherwise returns the numeric result together
with an echo of the expression; in particular `add` with 2 and 3 yields a
text result containing `5`. -/
theorem c8_simple_calculator (numStr : ℚ → String) (nowISO : String)
    (localeTime : String → String) (user : User) (a b : ℚ) (op : String)
    (argsM argsT : Option String) (id : RpcId) :
    (dispatchMessage numStr nowISO localeTime user
      ⟨some "2.0", "tools/call",
        ⟨"simple_calculator", some ⟨argsM, argsT, "divide", a, 0⟩⟩, id⟩ =
      McpResponse.error (-32603) "Division by zero" id) ∧
    (op ≠ "add" → op ≠ "subtract" → op ≠ "multiply" → op ≠ "divide" →
      dispatchMessage numStr nowISO localeTime user
        ⟨some "2.0", "tools/call",
          ⟨"simple_calculator", some ⟨argsM, argsT, op, a, b⟩⟩, id⟩ =
        McpResponse.error (-32603) ("Unknown operation: " ++ op) id) ∧
    (handleToolCall numStr nowISO localeTime "simple_calculator"
        ⟨argsM, argsT, "add", a, b⟩ user =
      Except.ok ⟨[⟨"text",
        numStr a ++ " " ++ "add" ++ " " ++ numStr b ++ " = " ++
          numStr (a + b) ++ "\nCalculated for: " ++ user.name⟩]⟩) ∧
    (handleToolCall numStr nowISO localeTime "simple_calculator"
        ⟨argsM, argsT, "subtract", a, b⟩ user =
      Except.ok ⟨[⟨"text",
        numStr a ++ " " ++ "subtract" ++ " " ++ numStr b ++ " = " ++
          numStr (a - b) ++ "\nCalculated for: " ++ user.name⟩]⟩) ∧
    (handleToolCall numStr nowISO localeTime "simple_calculator"
        ⟨argsM, argsT, "multiply", a, b⟩ user =
      Except.ok ⟨[⟨"text",
        numStr a ++ " " ++ "multiply" ++ " " ++ numStr b ++ " = " ++
          numStr (a * b) ++ "\nCalculated for: " ++ user.name⟩]⟩) ∧
    (b ≠ 0 →
      handleToolCall numStr nowISO localeTime "simple_calculator"
          ⟨argsM, argsT, "divide", a, b⟩ user =
        Except.ok ⟨[⟨"text",
          numStr a ++ " " ++ "divide" ++ " " ++ numStr b ++ " = " ++
            numStr (a / b) ++ "\nCalculated for: " ++ user.name⟩]⟩) ∧
    (numStr 2 = "2" → numStr 3 = "3" → numStr 5 = "5" →
      dispatchMessage numStr nowISO localeTime demoUser
        ⟨some "2.0", "tools/call",
          ⟨"simple_calculator", some ⟨none, none, "add", 2, 3⟩⟩, id⟩ =
        McpResponse.result (McpResult.toolResult
          ⟨[⟨"text", "2 add 3 = 5\nCalculated for: Demo User"⟩]⟩) id ∧
      strContains "2 add 3 = 5\nCalculated for: Demo User" "5" = true) := by
  refine ⟨?_, ?_, ?_, ?_, ?_, ?_, ?_⟩
  · simp [dispatchMessage, handleToolCall]
  · intro h1 h2 h3 h4
    simp [dispatchMessage, handleToolCall, h1, h2, h3, h4]
  · simp [handleToolCall]
  · simp [handleToolCall]
  · simp [handleToolCall]
  · intro hb
    simp [handleToolCall, hb]
  · intro h2 h3 h5
    refine ⟨?_, by decide⟩
    simp only [dispatchMessage, handleToolCall]
    norm_num [h2, h3, h5]
    rfl

theorem c8_simple_calculator_witness :
    dispatchMessage numStr0 nowISO0 localeTime0 demoUser
      ⟨some "2.0", "tools/call",
        ⟨"simple_calculator", some ⟨none, none, "divide", 10, 0⟩⟩,
        RpcId.num 1⟩ =
      McpResponse.error (-32603) "Division by zero" (RpcId.num 1) ∧
    (dispatchMessage numStr0 nowISO0 localeTime0 demoUser
        ⟨some "2.0", "tools/call",
          ⟨"simple_calculator", some ⟨none, none, "add", 2, 3⟩⟩,
          RpcId.num 1⟩ =
        McpResponse.result (McpResult.toolResult
          ⟨[⟨"text", "2 add 3 = 5\nCalculated for: Demo User"⟩]⟩)
          (RpcId.num 1) ∧
      strContains "2 add 3 = 5\nCalculated for: Demo User" "5" = true) :=
  ⟨(c8_simple_calculator numStr0 nowISO0 localeTime0 demoUser 10 3 "x" none
      none (RpcId.num 1)).1,
   (c8_simple_calculator numStr0 nowISO0 localeTime0 demoUser 10 3 "x" none
      none (RpcId.num 1)).2.2.2.2.2.2 (by decide) (by decide) (by decide)⟩
